import Mathlib

/-
Verification of the web-control fake-cursor engine.

Shallow embedding of the cursor-guide engine: the target resolver, the
geometry and easing utilities, the per-frame animation position (including
the wobble term), the synthetic pointer or mouse event constructor, the guide
orchestrator (multi-step runs with per-step results), the legacy range-slider
drag loop, and the cursor-visibility timer state machine.

Modelling conventions:
- JavaScript numbers are modelled as exact rationals.
- DOM elements are abstract handles (naturals); the host DOM (getElementById,
  querySelector, querySelectorAll, getBoundingClientRect, elementFromPoint)
  is an abstract environment. getElementById and elementFromPoint are total,
  null-returning APIs; querySelector and querySelectorAll throw a
  SyntaxError DOMException on a malformed selector string, modelled by DomE
  (a selector grammar over the well-formed projection Dom) and the Except
  valued resolver and orchestrator built on it; Dom alone describes the
  executions in which every consulted selector is well-formed.
- performance.now based elapsed times are environment effects and are
  modelled as 0 in step results; they are not the subject of any theorem.
- The per-frame oscillator samples sin(now * 0.02) and cos(now * 0.018) are
  clock driven and appear as explicit parameters of the frame position.
-/

namespace WebControl

/-- A 2D screen point with exact rational coordinates. -/
structure Pt where
  x : ℚ
  y : ℚ
deriving DecidableEq, Repr

/-- A bounding client rect, as returned by getBoundingClientRect. -/
structure Rect where
  left : ℚ
  top : ℚ
  width : ℚ
  height : ℚ
deriving DecidableEq, Repr

/-- DOMRect right edge: left + width. -/
def Rect.right (r : Rect) : ℚ := r.left + r.width

/-- DOMRect bottom edge: top + height. -/
def Rect.bottom (r : Rect) : ℚ := r.top + r.height

/-- Source: clamp(n, min, max) = Math.max(min, Math.min(max, n)). -/
def clamp (n lo hi : ℚ) : ℚ := max lo (min hi n)

/-- Easing kinds of GuideOptions.easing. -/
inductive Easing
  | ease
  | easeIn
  | easeOut
  | easeInOut
  | linear
deriving DecidableEq, Repr

/-- Source: easeInOutCubic(t) = t < 0.5 ? 4 t^3 : 1 - (-2t+2)^3 / 2. -/
def easeInOutCubic (t : ℚ) : ℚ :=
  if t < 1/2 then 4 * t * t * t else 1 - (-2 * t + 2) ^ 3 / 2

/-- Source: easeFn = easing === "linear" ? (t => t) : easeInOutCubic. -/
def easeFn (e : Easing) : ℚ → ℚ :=
  match e with
  | .linear => fun t => t
  | _ => easeInOutCubic

/-- Source: const wobbleBase = 0.35. -/
def wobbleBase : ℚ := 35/100

/-- Source: wobbleAmp = wobbleBase * (1 - k), with k = easeFn(t). -/
def wobbleAmp (e : Easing) (t : ℚ) : ℚ := wobbleBase * (1 - easeFn e t)

/-- Quadratic Bezier B(k) = (1-k)^2 P0 + 2(1-k)k C + k^2 P1, as in the
animation frame (u = 1 - k). -/
def bezier2 (p0 c p1 : Pt) (k : ℚ) : Pt :=
  let u := 1 - k
  ⟨u * u * p0.x + 2 * u * k * c.x + k * k * p1.x,
   u * u * p0.y + 2 * u * k * c.y + k * k * p1.y⟩

/-- Straight-path interpolation: from + (tgt - from) * k, componentwise. -/
def lerpPt (frm tgt : Pt) (k : ℚ) : Pt :=
  ⟨frm.x + (tgt.x - frm.x) * k, frm.y + (tgt.y - frm.y) * k⟩

/-- The position written to the cursor element on one animation frame:
eased base point (Bezier when useCurve, straight interpolation otherwise)
plus the wobble term. sinv and cosv are the clock-driven oscillator samples
sin(now * 0.02) and cos(now * 0.018). -/
def framePos (useCurve : Bool) (e : Easing) (frm tgt cp : Pt)
    (t sinv cosv : ℚ) : Pt :=
  let k := easeFn e t
  let base := if useCurve then bezier2 frm cp tgt k else lerpPt frm tgt k
  let amp := wobbleBase * (1 - k)
  ⟨base.x + sinv * amp, base.y + cosv * amp⟩

/-- The event type strings passed to dispatchMouseLike in this repository. -/
inductive EvType
  | pointerdown
  | mousedown
  | mouseup
  | click
  | pointermove
  | mousemove
  | pointerup
deriving DecidableEq, Repr

/-- Source: isDown = type === "pointerdown" or type === "mousedown". -/
def EvType.isDownType : EvType → Bool
  | .pointerdown => true
  | .mousedown => true
  | _ => false

/-- The observable fields of a constructed synthetic event. Fields that a
constructor init dictionary leaves unset take the DOM defaults: button 0,
buttons 0, isPrimary false, pointerId 0, pointerType empty. -/
structure SynthEvent where
  evType : EvType
  bubbles : Bool
  cancelable : Bool
  clientX : ℚ
  clientY : ℚ
  button : ℕ
  buttons : ℕ
  isPrimary : Bool
  pointerId : ℕ
  pointerType : String
  isPointerEvent : Bool
deriving DecidableEq, Repr

/-- Host capabilities for event construction: whether PointerEvent exists on
window, and whether its constructor throws (the try-catch fallback path). -/
structure DispatchEnv where
  pointerEventSupported : Bool
  pointerCtorThrows : Bool
deriving DecidableEq, Repr

/-- Source: dispatchMouseLike(target, type, point). common carries bubbles,
cancelable, view, clientX, clientY. In the try block the init is enriched
with button 0, buttons (1 for down types, else 0) and isPrimary true; a
PointerEvent additionally gets pointerId 1 and pointerType mouse. On
construction failure the catch block builds a MouseEvent from common only,
so the enrichment fields fall back to the DOM defaults. MouseEvent ignores
the pointer-only init keys. The extra parameter is never supplied at
any call site in this repository and is omitted. -/
def dispatchMouseLike (env : DispatchEnv) (ty : EvType) (p : Pt) : SynthEvent :=
  let isDown := ty.isDownType
  if env.pointerEventSupported then
    if env.pointerCtorThrows then
      { evType := ty, bubbles := true, cancelable := true,
        clientX := p.x, clientY := p.y,
        button := 0, buttons := 0, isPrimary := false,
        pointerId := 0, pointerType := "", isPointerEvent := false }
    else
      { evType := ty, bubbles := true, cancelable := true,
        clientX := p.x, clientY := p.y,
        button := 0, buttons := if isDown then 1 else 0, isPrimary := true,
        pointerId := 1, pointerType := "mouse", isPointerEvent := true }
  else
    { evType := ty, bubbles := true, cancelable := true,
      clientX := p.x, clientY := p.y,
      button := 0, buttons := if isDown then 1 else 0, isPrimary := false,
      pointerId := 0, pointerType := "", isPointerEvent := false }

/-- An event dispatched during a step, with the in-step time offset in
milliseconds at which it is dispatched (0 for events whose timing is purely
frame driven). -/
structure TimedEvent where
  ev : SynthEvent
  atMs : ℚ
deriving DecidableEq, Repr

/-- Source: await new Promise(r => setTimeout(r, 90)) between mousedown and
mouseup of the click action. -/
def clickHoldMs : ℚ := 90

/-- The click action event sequence: pointerdown, mousedown, then after the
90 ms hold, mouseup and click, all at the same point p. -/
def clickSequence (env : DispatchEnv) (p : Pt) : List TimedEvent :=
  [⟨dispatchMouseLike env .pointerdown p, 0⟩,
   ⟨dispatchMouseLike env .mousedown p, 0⟩,
   ⟨dispatchMouseLike env .mouseup p, clickHoldMs⟩,
   ⟨dispatchMouseLike env .click p, clickHoldMs⟩]

/-- The host DOM restricted to executions in which every consulted selector
string is syntactically well-formed, so the query functions are total.
Elements are abstract natural-number handles. querySelectorAll takes an
optional scope element (none is the document) and returns the matches in
document order. getElementById never throws for any string. The SyntaxError
DOMException that querySelector and querySelectorAll throw on a malformed
selector string is modelled by the DomE layer below, of which this
structure is the well-formed projection. -/
structure Dom where
  getElementById : String → Option ℕ
  querySelector : String → Option ℕ
  querySelectorAll : Option ℕ → String → List ℕ
  rect : ℕ → Rect

/-- The within field of a structured selector target: an element or a
string (id, then selector). -/
inductive WithinSpec
  | el (e : ℕ)
  | str (s : String)
deriving DecidableEq, Repr

/-- GuideTarget: string (id, then selector), literal element, structured
selector, literal position, or any other object (an object carrying neither
a position nor a selector key), which the resolver maps to position (0,0). -/
inductive GuideTarget
  | el (e : ℕ)
  | str (s : String)
  | selectorSpec (selector : String) (nth : Option ℤ) (within : Option WithinSpec)
  | position (p : Pt)
  | otherObject
deriving DecidableEq, Repr

/-- The kind tag of a resolution result. -/
inductive TargetKind
  | element
  | position
deriving DecidableEq, Repr

/-- Return shape of resolveTarget: kind, optional element, optional point. -/
structure Resolved where
  kind : TargetKind
  element : Option ℕ
  point : Option Pt
deriving DecidableEq, Repr

/-- Source: resolveWithin(within): no within means the document; an element
is used directly; a string is looked up by id first, then as a selector,
falling back to the document. none models the document scope. -/
def resolveWithin (dom : Dom) : Option WithinSpec → Option ℕ
  | none => none
  | some (.el e) => some e
  | some (.str s) =>
      match dom.getElementById s with
      | some e => some e
      | none =>
          match dom.querySelector s with
          | some q => some q
          | none => none

/-- Source: resolveTarget(target). Element first; a string is resolved by id
then by generic selector query (kind position with no point when both miss);
an object with a position key is a literal point; an object with a selector
key is queried in scope with the nth index clamped into range; any other
object falls through to kind position at point (0,0). -/
def resolveTarget (dom : Dom) : GuideTarget → Resolved
  | .el e => ⟨.element, some e, none⟩
  | .str s =>
      match dom.getElementById s with
      | some e => ⟨.element, some e, none⟩
      | none =>
          match dom.querySelector s with
          | some q => ⟨.element, some q, none⟩
          | none => ⟨.position, none, none⟩
  | .position p => ⟨.position, none, some p⟩
  | .selectorSpec sel nth within =>
      let scope := resolveWithin dom within
      let all := dom.querySelectorAll scope sel
      let idx : ℤ := max 0 (min ((all.length : ℤ) - 1) (nth.getD 0))
      let el := all[idx.toNat]?
      ⟨if el.isSome then .element else .position, el, none⟩
  | .otherObject => ⟨.position, none, some ⟨0, 0⟩⟩

/-- Anchor specification: center, top-left, bottom-right or fractional. -/
inductive Anchor
  | center
  | topLeft
  | bottomRight
  | frac (x y : ℚ)
deriving DecidableEq, Repr

/-- Source: getAnchoredPoint(el, anchor) over the bounding rect; missing
anchor and center give the rect center; fractional anchors are clamped to
the unit interval before interpolation. -/
def getAnchoredPoint (r : Rect) : Option Anchor → Pt
  | none => ⟨r.left + r.width / 2, r.top + r.height / 2⟩
  | some .center => ⟨r.left + r.width / 2, r.top + r.height / 2⟩
  | some .topLeft => ⟨r.left, r.top⟩
  | some .bottomRight => ⟨r.right, r.bottom⟩
  | some (.frac ax ay) =>
      ⟨r.left + r.width * clamp ax 0 1, r.top + r.height * clamp ay 0 1⟩

/-- Optional pixel offset with optional components. -/
structure OffsetSpec where
  x : Option ℚ := none
  y : Option ℚ := none
deriving DecidableEq, Repr

/-- Source: applyOffset(p, offset) = p + (offset?.x ?? 0, offset?.y ?? 0). -/
def applyOffset (p : Pt) (off : Option OffsetSpec) : Pt :=
  ⟨p.x + ((off.bind OffsetSpec.x).getD 0), p.y + ((off.bind OffsetSpec.y).getD 0)⟩

/-- window.innerWidth and window.innerHeight. -/
structure Viewport where
  innerWidth : ℚ
  innerHeight : ℚ
deriving DecidableEq, Repr

/-- Source: clampToViewport(p) clamps componentwise to the viewport. -/
def clampToViewport (vp : Viewport) (p : Pt) : Pt :=
  ⟨clamp p.x 0 vp.innerWidth, clamp p.y 0 vp.innerHeight⟩

/-- Path kind of GuideOptions.path. -/
inductive PathKind
  | straight
  | curve
deriving DecidableEq, Repr

/-- Curve direction of GuideOptions.curveDirection. -/
inductive CurveDirection
  | auto
  | left
  | right
deriving DecidableEq, Repr

/-- Guide actions. -/
inductive GuideAction
  | none
  | click
  | drag
deriving DecidableEq, Repr

/-- GuideOptions, all fields optional as in the source. -/
structure GuideOptions where
  action : Option GuideAction := Option.none
  durationMs : Option ℚ := Option.none
  easing : Option Easing := Option.none
  offset : Option OffsetSpec := Option.none
  highlight : Option Bool := Option.none
  path : Option PathKind := Option.none
  curveStrength : Option ℚ := Option.none
  curveDirection : Option CurveDirection := Option.none
  anchor : Option Anchor := Option.none
  cursorHotspot : Option OffsetSpec := Option.none
  dragTo : Option GuideTarget := Option.none
deriving DecidableEq, Repr

/-- GuideStep: target, optional action, optional options. -/
structure GuideStep where
  target : GuideTarget
  action : Option GuideAction := Option.none
  options : Option GuideOptions := Option.none
deriving DecidableEq, Repr

/-- GuideStepResult. durationMs is the rounded performance.now elapsed time,
an environment effect modelled as 0. clickedElementId models the clicked
element handle (none both for the document body fallback and for the result
records that omit the field). -/
structure GuideStepResult where
  ok : Bool
  action : GuideAction
  targetKind : TargetKind
  durationMs : ℚ
  clickedElementId : Option ℕ := Option.none
  error : Option String := Option.none
deriving DecidableEq, Repr

/-- GuideRunResult: overall flag plus per-step results. -/
structure GuideRunResult where
  ok : Bool
  steps : List GuideStepResult
deriving DecidableEq, Repr

/-- The page environment a run executes against. dragFrames lists the frame
callback sample points of a generic drag animation (requestAnimationFrame
driven, hence environment data). -/
structure Env where
  dom : Dom
  viewport : Viewport
  dispatch : DispatchEnv
  dragFrames : List Pt
  elementFromPoint : Pt → Option ℕ

/-- Source: const opts = s.options ?? empty object. -/
def stepOpts (s : GuideStep) : GuideOptions := s.options.getD {}

/-- Source: action = s.action ?? (s.options?.action ?? "none"). -/
def stepAction (s : GuideStep) : GuideAction :=
  s.action.getD ((s.options.bind GuideOptions.action).getD GuideAction.none)

/-- The resolution of the step target. -/
def stepResolved (env : Env) (s : GuideStep) : Resolved :=
  resolveTarget env.dom s.target

/-- Source: targetPoint and targetElement derived from the resolution: an
element kind with an element gives its anchored point; a position kind with
a point gives the literal point; otherwise no target point. -/
def stepTargetInfo (env : Env) (anchor : Option Anchor) (res : Resolved) :
    Option Pt × Option ℕ :=
  match res.kind, res.element with
  | .element, some e => (some (getAnchoredPoint (env.dom.rect e) anchor), some e)
  | _, _ =>
      match res.kind, res.point with
      | .position, some p => (some p, Option.none)
      | _, _ => (Option.none, Option.none)

/-- The step target point (none is the not-found outcome). -/
def stepTP (env : Env) (s : GuideStep) : Option Pt :=
  (stepTargetInfo env (stepOpts s).anchor (stepResolved env s)).1

/-- The step target element, when the target resolved to an element. -/
def stepTElem (env : Env) (s : GuideStep) : Option ℕ :=
  (stepTargetInfo env (stepOpts s).anchor (stepResolved env s)).2

/-- Source: the destination is clampToViewport(applyOffset(targetPoint, offset)). -/
def stepDestination (vp : Viewport) (tp : Pt) (off : Option OffsetSpec) : Pt :=
  clampToViewport vp (applyOffset tp off)

/-- Source: p is the destination plus cursorHotspot, the point the click sequence uses. -/
def clickPoint (env : Env) (s : GuideStep) (tp : Pt) : Pt :=
  let tgt := stepDestination env.viewport tp (stepOpts s).offset
  ⟨tgt.x + (((stepOpts s).cursorHotspot.bind OffsetSpec.x).getD 0),
   tgt.y + (((stepOpts s).cursorHotspot.bind OffsetSpec.y).getD 0)⟩

/-- Outcome of one step: the pushed result record, the synthetic events
dispatched during the step in order, and the cursor position at step end. -/
structure StepOutcome where
  result : GuideStepResult
  events : List TimedEvent
  endPos : Pt
deriving DecidableEq, Repr

/-- The not-found branch: push ok false with error "Target not found" and
continue; no events are dispatched, the cursor does not move. -/
def notFoundOutcome (env : Env) (pos : Pt) (s : GuideStep) : StepOutcome :=
  { result := { ok := false, action := stepAction s,
                targetKind := (stepResolved env s).kind, durationMs := 0,
                error := some "Target not found" },
    events := [], endPos := pos }

/-- Source: the drag destination point: resolve dragTo, anchored point for an
element, literal point for a position, none when unresolved. -/
def dragDestPoint (env : Env) (anchor : Option Anchor) (dragTo : GuideTarget) :
    Option Pt :=
  let dest := resolveTarget env.dom dragTo
  match dest.kind, dest.element with
  | .element, some e => some (getAnchoredPoint (env.dom.rect e) anchor)
  | _, _ =>
      match dest.kind, dest.point with
      | .position, some p => some p
      | _, _ => Option.none

/-- The click action: snap the cursor to the hotspot-adjusted point, dispatch
pointerdown and mousedown, hold 90 ms, dispatch mouseup and click, record the
clicked element (target element, else elementFromPoint, else the body). -/
def clickOutcome (env : Env) (s : GuideStep) (tp : Pt) (telem : Option ℕ) :
    StepOutcome :=
  let p := clickPoint env s tp
  let clickTarget : Option ℕ :=
    match telem with
    | some e => some e
    | Option.none => env.elementFromPoint p
  { result := { ok := true, action := GuideAction.click,
                targetKind := (stepResolved env s).kind, durationMs := 0,
                clickedElementId := clickTarget },
    events := clickSequence env.dispatch p,
    endPos := p }

/-- The drag action. A missing dragTo or an unresolved drag destination is
thrown and caught at the step boundary as an error result, before any event
is dispatched (the source message quotes the word drag; the quotes are
omitted here). Otherwise pointerdown and mousedown fire at the start point,
pointermove and mousemove fire per animation frame at the frame point, and
pointerup and mouseup fire at the clamped destination. -/
def dragOutcome (env : Env) (s : GuideStep) (tp : Pt) : StepOutcome :=
  let tgt := stepDestination env.viewport tp (stepOpts s).offset
  match (stepOpts s).dragTo with
  | Option.none =>
      { result := { ok := false, action := GuideAction.drag,
                    targetKind := (stepResolved env s).kind, durationMs := 0,
                    error := some "dragTo is required for action drag" },
        events := [], endPos := tgt }
  | some dt =>
      match dragDestPoint env (stepOpts s).anchor dt with
      | Option.none =>
          { result := { ok := false, action := GuideAction.drag,
                        targetKind := (stepResolved env s).kind, durationMs := 0,
                        error := some "dragTo target not found" },
            events := [], endPos := tgt }
      | some dp =>
          let dst := stepDestination env.viewport dp (stepOpts s).offset
          let moveEvs := env.dragFrames.flatMap (fun q =>
            [⟨dispatchMouseLike env.dispatch .pointermove q, 0⟩,
             ⟨dispatchMouseLike env.dispatch .mousemove q, 0⟩])
          { result := { ok := true, action := GuideAction.drag,
                        targetKind := (stepResolved env s).kind, durationMs := 0 },
            events :=
              [⟨dispatchMouseLike env.dispatch .pointerdown tgt, 0⟩,
               ⟨dispatchMouseLike env.dispatch .mousedown tgt, 0⟩]
              ++ moveEvs
              ++ [⟨dispatchMouseLike env.dispatch .pointerup dst, 0⟩,
                  ⟨dispatchMouseLike env.dispatch .mouseup dst, 0⟩],
            endPos := dst }

/-- A resolved step: travel to the clamped destination (the travel, overshoot
and settle animations end exactly on it, since the wobble amplitude is 0 at
t = 1), then perform the action. -/
def runResolvedStep (env : Env) (s : GuideStep) (tp : Pt) (telem : Option ℕ) :
    StepOutcome :=
  let tgt := stepDestination env.viewport tp (stepOpts s).offset
  match stepAction s with
  | GuideAction.none =>
      { result := { ok := true, action := GuideAction.none,
                    targetKind := (stepResolved env s).kind, durationMs := 0 },
        events := [], endPos := tgt }
  | GuideAction.click => clickOutcome env s tp telem
  | GuideAction.drag => dragOutcome env s tp

/-- One iteration of the orchestrator loop body. -/
def runStep (env : Env) (pos : Pt) (s : GuideStep) : StepOutcome :=
  match stepTP env s with
  | Option.none => notFoundOutcome env pos s
  | some tp => runResolvedStep env s tp (stepTElem env s)

/-- The orchestrator loop: each step starts from the cursor position the
previous step ended at, and every step contributes exactly one result. -/
def runStepsAux (env : Env) : Pt → List GuideStep → List (GuideStepResult × List TimedEvent)
  | _, [] => []
  | pos, s :: rest =>
      let o := runStep env pos s
      (o.result, o.events) :: runStepsAux env o.endPos rest

/-- Source: return ok results.every(r => r.ok) with the results list. -/
def runGuide (env : Env) (p0 : Pt) (steps : List GuideStep) : GuideRunResult :=
  let outs := runStepsAux env p0 steps
  { ok := (outs.map Prod.fst).all GuideStepResult.ok,
    steps := outs.map Prod.fst }

/-- The events of each step of a run, aligned with the results list. -/
def runEvents (env : Env) (p0 : Pt) (steps : List GuideStep) : List (List TimedEvent) :=
  (runStepsAux env p0 steps).map Prod.snd

/-
The selector-syntax-aware host DOM and the exception-aware resolver and
orchestrator. document.querySelector and document.querySelectorAll throw a
SyntaxError DOMException when the selector string is malformed; in the
source, resolveTarget(s.target) is invoked outside the per-step try block,
so that exception escapes the orchestrator (the async function rejects),
while the dragTo resolution runs inside the try and its exception becomes
the step's error record.
-/

/-- The host DOM together with the selector grammar: selectorOk tells
whether a string parses as a selector. getElementById never throws; the
queries agree with the total projection dom on well-formed selectors and
throw on malformed ones. -/
structure DomE where
  dom : Dom
  selectorOk : String → Bool

/-- document.querySelector: throws a SyntaxError on a malformed selector,
otherwise returns the first match or null. -/
def querySelectorE (d : DomE) (s : String) : Except String (Option ℕ) :=
  if d.selectorOk s then Except.ok (d.dom.querySelector s)
  else Except.error "SyntaxError"

/-- document.querySelectorAll: throws a SyntaxError on a malformed selector,
otherwise returns the match list. -/
def querySelectorAllE (d : DomE) (scope : Option ℕ) (s : String) :
    Except String (List ℕ) :=
  if d.selectorOk s then Except.ok (d.dom.querySelectorAll scope s)
  else Except.error "SyntaxError"

/-- resolveWithin with the throwing querySelector: a string scope is looked
up by id first (never throws); only on an id miss is it passed to
querySelector, which can throw. -/
def resolveWithinE (d : DomE) : Option WithinSpec → Except String (Option ℕ)
  | none => Except.ok none
  | some (.el e) => Except.ok (some e)
  | some (.str s) =>
      match d.dom.getElementById s with
      | some e => Except.ok (some e)
      | none =>
          match querySelectorE d s with
          | Except.error msg => Except.error msg
          | Except.ok (some q) => Except.ok (some q)
          | Except.ok none => Except.ok none

/-- resolveTarget with the throwing queries: the id lookup runs first and
never throws (an id hit never consults the selector grammar, even for a
malformed string); only on an id miss is the string passed to
querySelector, which throws on a malformed selector; structured selectors
throw through resolveWithin or querySelectorAll the same way. -/
def resolveTargetE (d : DomE) : GuideTarget → Except String Resolved
  | .el e => Except.ok ⟨.element, some e, none⟩
  | .str s =>
      match d.dom.getElementById s with
      | some e => Except.ok ⟨.element, some e, none⟩
      | none =>
          match querySelectorE d s with
          | Except.error msg => Except.error msg
          | Except.ok (some q) => Except.ok ⟨.element, some q, none⟩
          | Except.ok none => Except.ok ⟨.position, none, none⟩
  | .position p => Except.ok ⟨.position, none, some p⟩
  | .selectorSpec sel nth within =>
      match resolveWithinE d within with
      | Except.error msg => Except.error msg
      | Except.ok scope =>
          match querySelectorAllE d scope sel with
          | Except.error msg => Except.error msg
          | Except.ok all =>
              let idx : ℤ := max 0 (min ((all.length : ℤ) - 1) (nth.getD 0))
              let el := all[idx.toNat]?
              Except.ok ⟨if el.isSome then .element else .position, el, none⟩
  | .otherObject => Except.ok ⟨.position, none, some ⟨0, 0⟩⟩

/-- The page environment with the selector-syntax-aware DOM. -/
structure EnvE where
  domE : DomE
  viewport : Viewport
  dispatch : DispatchEnv
  dragFrames : List Pt
  elementFromPoint : Pt → Option ℕ

/-- The total-model environment a throwing environment projects to. -/
def EnvE.toEnv (env : EnvE) : Env :=
  { dom := env.domE.dom, viewport := env.viewport, dispatch := env.dispatch,
    dragFrames := env.dragFrames, elementFromPoint := env.elementFromPoint }

/-- The drag destination point with the throwing resolver. Whenever this
returns ok, the value agrees with the total-model dragDestPoint (lemma
dragDestPointE_ok below). -/
def dragDestPointE (env : EnvE) (anchor : Option Anchor) (dragTo : GuideTarget) :
    Except String (Option Pt) :=
  match resolveTargetE env.domE dragTo with
  | Except.error msg => Except.error msg
  | Except.ok dest =>
      Except.ok
        (match dest.kind, dest.element with
         | .element, some e => some (getAnchoredPoint (env.domE.dom.rect e) anchor)
         | _, _ =>
             match dest.kind, dest.point with
             | .position, some p => some p
             | _, _ => Option.none)

/-- The drag action with the throwing dragTo resolution, which runs inside
the step's try block: a SyntaxError thrown there is caught and becomes the
error record. When the dragTo resolution does not throw it agrees with the
total model (lemma dragDestPointE_ok), so the remaining behavior is the
total-model drag branch. -/
def dragOutcomeE (env : EnvE) (s : GuideStep) (tp : Pt) : StepOutcome :=
  match (stepOpts s).dragTo with
  | Option.none => dragOutcome env.toEnv s tp
  | some dt =>
      match dragDestPointE env (stepOpts s).anchor dt with
      | Except.error msg =>
          { result := { ok := false, action := GuideAction.drag,
                        targetKind := (stepResolved env.toEnv s).kind,
                        durationMs := 0, error := some msg },
            events := [],
            endPos := stepDestination env.viewport tp (stepOpts s).offset }
      | Except.ok _ => dragOutcome env.toEnv s tp

/-- A resolved step in the throwing model: identical to the total model
except that the drag branch resolves dragTo through the throwing resolver
(inside the try). -/
def runResolvedStepE (env : EnvE) (s : GuideStep) (tp : Pt) (telem : Option ℕ) :
    StepOutcome :=
  match stepAction s with
  | GuideAction.none => runResolvedStep env.toEnv s tp telem
  | GuideAction.click => clickOutcome env.toEnv s tp telem
  | GuideAction.drag => dragOutcomeE env s tp

/-- One iteration of the orchestrator loop in the throwing model: the step
target resolution runs outside the try block, so its SyntaxError escapes as
an error of the whole call; the not-found check and the action run as in
the total model. -/
def runStepE (env : EnvE) (pos : Pt) (s : GuideStep) : Except String StepOutcome :=
  match resolveTargetE env.domE s.target with
  | Except.error msg => Except.error msg
  | Except.ok res =>
      Except.ok
        (match (stepTargetInfo env.toEnv (stepOpts s).anchor res).1 with
         | Option.none => notFoundOutcome env.toEnv pos s
         | some tp =>
             runResolvedStepE env s tp
               (stepTargetInfo env.toEnv (stepOpts s).anchor res).2)

/-- The orchestrator loop in the throwing model: an escaping exception
aborts the loop, and no result list is produced. -/
def runStepsAuxE (env : EnvE) :
    Pt → List GuideStep → Except String (List (GuideStepResult × List TimedEvent))
  | _, [] => Except.ok []
  | pos, s :: rest =>
      match runStepE env pos s with
      | Except.error msg => Except.error msg
      | Except.ok o =>
          match runStepsAuxE env o.endPos rest with
          | Except.error msg => Except.error msg
          | Except.ok outs => Except.ok ((o.result, o.events) :: outs)

/-- The guide entry point in the throwing model: an escaping exception
rejects the returned promise, so the caller receives the error instead of a
GuideRunResult. -/
def runGuideE (env : EnvE) (p0 : Pt) (steps : List GuideStep) :
    Except String GuideRunResult :=
  match runStepsAuxE env p0 steps with
  | Except.error msg => Except.error msg
  | Except.ok outs =>
      Except.ok { ok := (outs.map Prod.fst).all GuideStepResult.ok,
                  steps := outs.map Prod.fst }

/-
Legacy engine (the unnamed near-duplicate variant): the range-slider drag
loop. The input element contributes its parsed min and max attributes
(none when parseFloat yields NaN) and its bounding rect.
-/

/-- A range input: parsed min and max attributes (none models NaN) and the
bounding client rect. -/
structure RangeInput where
  minAttr : Option ℚ
  maxAttr : Option ℚ
  rect : Rect
deriving DecidableEq, Repr

/-- Source: min = isNaN(parseFloat(input.min)) ? 0 : parseFloat(input.min). -/
def rangeMin (inp : RangeInput) : ℚ := inp.minAttr.getD 0

/-- Source: max = isNaN(parseFloat(input.max)) ? 100 : parseFloat(input.max). -/
def rangeMax (inp : RangeInput) : ℚ := inp.maxAttr.getD 100

/-- Source: const steps = 20. -/
def sliderStepCount : ℕ := 20

/-- The slider drag end point: next = clamp(toValue, min, max), then the
fraction t = (next - min) / (max - min || 1) across the rect width, at the
rect vertical center. -/
def sliderEndPoint (inp : RangeInput) (toValue : ℚ) : Pt :=
  let mn := rangeMin inp
  let mx := rangeMax inp
  let next := clamp toValue mn mx
  let denom := if mx - mn = 0 then 1 else mx - mn
  let t := (next - mn) / denom
  ⟨inp.rect.left + inp.rect.width * t, inp.rect.top + inp.rect.height / 2⟩

/-- The DOM events one slider-drag iteration dispatches, in order. -/
inductive SliderEvKind
  | pointermove
  | mousemove
  | inputEv
  | changeEv
deriving DecidableEq, Repr

/-- One iteration of the slider drag loop: the pointer point of the move
events, the value written to the input before the input and change events
fire, the dispatched event kinds in order, and the awaited delay. -/
structure SliderStep where
  point : Pt
  valueWritten : ℚ
  events : List SliderEvKind
  delayMs : ℚ
deriving DecidableEq, Repr

/-- Iteration i (1-based) of the slider drag loop: k = i / steps, the pointer
interpolates from startPoint to the end point, the value written is
min + (next - min) * k, and the loop awaits max(4, durationMs / steps / 2). -/
def sliderStepAt (inp : RangeInput) (toValue : ℚ) (startP : Pt)
    (durationMs : ℚ) (i : ℕ) : SliderStep :=
  let mn := rangeMin inp
  let mx := rangeMax inp
  let next := clamp toValue mn mx
  let endP := sliderEndPoint inp toValue
  let k : ℚ := (i : ℚ) / (sliderStepCount : ℚ)
  { point := ⟨startP.x + (endP.x - startP.x) * k, startP.y + (endP.y - startP.y) * k⟩,
    valueWritten := mn + (next - mn) * k,
    events := [.pointermove, .mousemove, .inputEv, .changeEv],
    delayMs := max 4 (durationMs / (sliderStepCount : ℚ) / 2) }

/-- The whole slider drag loop: iterations i = 1 .. 20 in order. -/
def sliderDragSteps (inp : RangeInput) (toValue : ℚ) (startP : Pt)
    (durationMs : ℚ) : List SliderStep :=
  (List.range sliderStepCount).map (fun j => sliderStepAt inp toValue startP durationMs (j + 1))

/-- The input value after the loop completes: the last value written. -/
def sliderFinalValue (inp : RangeInput) (toValue : ℚ) (startP : Pt)
    (durationMs : ℚ) : Option ℚ :=
  ((sliderDragSteps inp toValue startP durationMs).map SliderStep.valueWritten).getLast?

/-
Cursor visibility and hide-timer state machine. cursorIsMoving and
cursorHideTimer are module-level variables; pending host timers are the
live list (ids allocated from nextId); visible models the presence of the
visible class on the cursor element.
-/

/-- The shared cursor visibility state: the movement flag, the
cursorHideTimer variable (none models null), the pending host timers, the
next fresh timer id, and whether the visible class is present. -/
structure TimerState where
  isMoving : Bool
  slot : Option ℕ
  live : List ℕ
  nextId : ℕ
  visible : Bool
deriving DecidableEq, Repr

/-- Source: keepCursorVisibleWhileMoving sets the movement flag and, when a
hide timer is pending, clears it and nulls the variable. -/
def keepCursorVisibleWhileMoving (st : TimerState) : TimerState :=
  let st1 := { st with isMoving := true }
  match st1.slot with
  | some id => { st1 with live := st1.live.erase id, slot := Option.none }
  | Option.none => st1

/-- Source: scheduleCursorHide returns immediately while the movement flag is
set; otherwise it clears any pending timer and schedules a fresh one whose
callback hides the cursor only if the flag is still clear when it fires. -/
def scheduleCursorHide (st : TimerState) : TimerState :=
  if st.isMoving then st
  else
    let st1 :=
      match st.slot with
      | some id => { st with live := st.live.erase id }
      | Option.none => st
    { st1 with
      slot := some st1.nextId
      live := st1.live ++ [st1.nextId]
      nextId := st1.nextId + 1 }

/-- Source: stopMovingAndMaybeHide clears the movement flag, then schedules
the hide. -/
def stopMovingAndMaybeHide (st : TimerState) : TimerState :=
  scheduleCursorHide { st with isMoving := false }

/-- A pending timer fires: it is consumed, and the callback removes the
visible class only when the movement flag is clear. Firing an id that is not
pending is a no-op. -/
def fireTimer (st : TimerState) (id : ℕ) : TimerState :=
  if id ∈ st.live then
    let st1 := { st with live := st.live.erase id }
    if st1.isMoving then st1 else { st1 with visible := false }
  else st

/-- The operations that touch the visibility state: the three source
functions, ensureCursorVisible, and a host timer firing. -/
inductive CursorOp
  | keep
  | schedule
  | stopMove
  | ensureVisible
  | fire (id : ℕ)
deriving DecidableEq, Repr

/-- Apply one operation. -/
def applyOp (st : TimerState) : CursorOp → TimerState
  | .keep => keepCursorVisibleWhileMoving st
  | .schedule => scheduleCursorHide st
  | .stopMove => stopMovingAndMaybeHide st
  | .ensureVisible => { st with visible := true }
  | .fire id => fireTimer st id

/-- Apply a sequence of operations in order. -/
def runOps (st : TimerState) (ops : List CursorOp) : TimerState :=
  ops.foldl applyOp st

/-- Module load state: no movement, null timer variable, no pending timer,
cursor not yet visible. -/
def initTimerState : TimerState := ⟨false, Option.none, [], 0, false⟩

/-- The timer discipline invariant: every pending host timer is the one the
variable holds, and at most one is pending. -/
def TimerInv (st : TimerState) : Prop :=
  (∀ id ∈ st.live, st.slot = some id) ∧ st.live.length ≤ 1

/-
Concrete demo fixtures used by the witnesses: a page with one button with
id submitBtn whose rect is left 100, top 200, width 80, height 30, in a
1024 x 768 viewport with PointerEvent support.
-/

/-- The demo button rect. -/
def demoRect : Rect := ⟨100, 200, 80, 30⟩

/-- The demo DOM: only the id submitBtn resolves, to element 1. -/
def demoDom : Dom :=
  { getElementById := fun s => if s = "submitBtn" then some 1 else Option.none,
    querySelector := fun _ => Option.none,
    querySelectorAll := fun _ _ => [],
    rect := fun _ => demoRect }

/-- The demo environment. -/
def demoEnv : Env :=
  { dom := demoDom, viewport := ⟨1024, 768⟩, dispatch := ⟨true, false⟩,
    dragFrames := [], elementFromPoint := fun _ => Option.none }

/-- A click step on the demo button. -/
def demoClickStep : GuideStep := { target := .str "submitBtn", action := some .click }

/-- A step whose target does not resolve. -/
def demoBadStep : GuideStep := { target := .str "doesNotExist", action := some .click }

/-- A plain travel step on the demo button. -/
def demoMoveStep : GuideStep := { target := .str "submitBtn" }

/-- The three-step scenario: good, bad, good. -/
def demo3Steps : List GuideStep := [demoMoveStep, demoBadStep, demoMoveStep]

/-- The demo range input: min 0, max 100, a 200 px wide track. -/
def demoRange : RangeInput := ⟨some 0, some 100, ⟨300, 400, 200, 20⟩⟩

/-- The demo selector-aware DOM: the string !! is a malformed selector
(as in a real DOM, where !! does not parse as a selector group); every
other string is well-formed. -/
def demoDomE : DomE := { dom := demoDom, selectorOk := fun s => !(s == "!!") }

/-- The demo throwing environment. -/
def demoEnvE : EnvE :=
  { domE := demoDomE, viewport := ⟨1024, 768⟩, dispatch := ⟨true, false⟩,
    dragFrames := [], elementFromPoint := fun _ => Option.none }

/-- A demo environment in which every selector string is well-formed. -/
def demoEnvAllValid : EnvE :=
  { domE := { dom := demoDom, selectorOk := fun _ => true },
    viewport := ⟨1024, 768⟩, dispatch := ⟨true, false⟩,
    dragFrames := [], elementFromPoint := fun _ => Option.none }

/-
Helper lemmas shared by the claim theorems.
-/

/-- The Bezier curve starts at P0. -/
lemma bezier2_zero (p0 c p1 : Pt) : bezier2 p0 c p1 0 = p0 := by
  cases p0; cases c; cases p1
  simp only [bezier2, Pt.mk.injEq]
  constructor <;> ring

/-- The Bezier curve ends at P1. -/
lemma bezier2_one (p0 c p1 : Pt) : bezier2 p0 c p1 1 = p1 := by
  cases p0; cases c; cases p1
  simp only [bezier2, Pt.mk.injEq]
  constructor <;> ring

/-- Straight interpolation ends at the destination. -/
lemma lerpPt_one (frm tgt : Pt) : lerpPt frm tgt 1 = tgt := by
  cases frm; cases tgt
  simp only [lerpPt, Pt.mk.injEq]
  constructor <;> ring

/-- Every easing fixes 1. -/
lemma easeFn_one (e : Easing) : easeFn e 1 = 1 := by
  cases e <;> simp [easeFn, easeInOutCubic] <;> norm_num

/-- At t = 1 the frame position lands exactly on the destination, for any
oscillator samples: the wobble amplitude is zero there. -/
lemma framePos_one (u : Bool) (e : Easing) (frm tgt cp : Pt) (sinv cosv : ℚ) :
    framePos u e frm tgt cp 1 sinv cosv = tgt := by
  have hk := easeFn_one e
  cases u <;>
    simp [framePos, hk, bezier2_one, lerpPt_one]

/-
C4: the wobble amplitude.
-/

/-- C4 counterexample: the claim that the wobble amplitude equals
base * (1 - t) for all t in the unit interval fails on the code, because the
amplitude is computed from the eased time k = easeFn(t): with the default
ease-in-out easing at t = 1/4, the amplitude is 0.35 * (1 - 1/16) = 21/64,
not 0.35 * (3/4) = 21/80. -/
theorem wobble_amp_not_linear_in_t :
    ¬ (∀ (e : Easing) (t : ℚ), 0 ≤ t → t ≤ 1 →
        wobbleAmp e t = wobbleBase * (1 - t)) := by
  intro h
  have h4 := h Easing.easeInOut (1/4) (by norm_num) (by norm_num)
  rw [show wobbleAmp Easing.easeInOut (1/4) = 21/64 from by
        norm_num [wobbleAmp, easeFn, easeInOutCubic, wobbleBase]] at h4
  norm_num [wobbleBase] at h4

/-- C4 (amended): the wobble amplitude added on a frame equals
base * (1 - k) where k = easeFn(t) is the eased time (so for the linear
easing it equals base * (1 - t)); at t = 1 the amplitude is exactly 0, and
the frame position at t = 1 equals the untouched straight-interpolation or
Bezier result, with no residual offset. -/
theorem wobble_amp_eased_and_zero_at_end :
    (∀ (e : Easing) (t : ℚ), wobbleAmp e t = wobbleBase * (1 - easeFn e t)) ∧
    (∀ t : ℚ, wobbleAmp Easing.linear t = wobbleBase * (1 - t)) ∧
    (∀ e : Easing, wobbleAmp e 1 = 0) ∧
    (∀ (u : Bool) (e : Easing) (frm tgt cp : Pt) (sinv cosv : ℚ),
        framePos u e frm tgt cp 1 sinv cosv =
          (if u then bezier2 frm cp tgt (easeFn e 1) else lerpPt frm tgt (easeFn e 1))) ∧
    (∀ (u : Bool) (e : Easing) (frm tgt cp : Pt) (sinv cosv : ℚ),
        framePos u e frm tgt cp 1 sinv cosv = tgt) := by
  refine ⟨fun e t => rfl, fun t => rfl, fun e => ?_, fun u e frm tgt cp sinv cosv => ?_, framePos_one⟩
  · simp [wobbleAmp, easeFn_one]
  · rw [framePos_one]
    have hk := easeFn_one e
    cases u <;> simp [hk, bezier2_one, lerpPt_one]

/-
C6: Bezier endpoints.
-/

/-- C6: quadratic Bezier evaluation returns the start point exactly at t = 0
and the end point exactly at t = 1, for any control point. -/
theorem bezier2_endpoint_exact (p0 c p1 : Pt) :
    bezier2 p0 c p1 0 = p0 ∧ bezier2 p0 c p1 1 = p1 :=
  ⟨bezier2_zero p0 c p1, bezier2_one p0 c p1⟩

/-
Dispatcher field lemmas.
-/

/-- The constructed event always carries the requested type. -/
lemma dispatchMouseLike_evType (env : DispatchEnv) (ty : EvType) (p : Pt) :
    (dispatchMouseLike env ty p).evType = ty := by
  simp only [dispatchMouseLike]
  split_ifs <;> rfl

/-- The constructed event always carries the literal clientX. -/
lemma dispatchMouseLike_clientX (env : DispatchEnv) (ty : EvType) (p : Pt) :
    (dispatchMouseLike env ty p).clientX = p.x := by
  simp only [dispatchMouseLike]
  split_ifs <;> rfl

/-- The constructed event always carries the literal clientY. -/
lemma dispatchMouseLike_clientY (env : DispatchEnv) (ty : EvType) (p : Pt) :
    (dispatchMouseLike env ty p).clientY = p.y := by
  simp only [dispatchMouseLike]
  split_ifs <;> rfl

/-- The constructed event always bubbles. -/
lemma dispatchMouseLike_bubbles (env : DispatchEnv) (ty : EvType) (p : Pt) :
    (dispatchMouseLike env ty p).bubbles = true := by
  simp only [dispatchMouseLike]
  split_ifs <;> rfl

/-- The constructed event is always cancelable. -/
lemma dispatchMouseLike_cancelable (env : DispatchEnv) (ty : EvType) (p : Pt) :
    (dispatchMouseLike env ty p).cancelable = true := by
  simp only [dispatchMouseLike]
  split_ifs <;> rfl

/-
C7: event construction flags.
-/

/-- C7 counterexample: the claim fails on the MouseEvent fallback taken on
PointerEvent construction failure: that path builds the event from the
common init only, so a pointerdown constructed there carries buttons = 0
(the MouseEventInit default), not 1. -/
theorem dispatch_fallback_buttons_claim_false :
    ¬ (∀ (env : DispatchEnv) (ty : EvType) (p : Pt),
        ty.isDownType = true → (dispatchMouseLike env ty p).buttons = 1) := by
  intro h
  have h1 := h ⟨true, true⟩ EvType.pointerdown ⟨0, 0⟩ rfl
  have h0 : (dispatchMouseLike ⟨true, true⟩ EvType.pointerdown ⟨0, 0⟩).buttons = 0 := rfl
  rw [h0] at h1
  cases h1

/-- C7 (amended): every constructed event has bubbles and cancelable true and
the literal client coordinates; on the PointerEvent path the event carries
pointerId 1, pointerType mouse, isPrimary true and buttons 1 for down-type
events and 0 otherwise; the no-PointerEvent-support MouseEvent path carries
the same buttons flag; but the construction-failure fallback is built from
the common init only, so there buttons is 0 even for down-type events. -/
theorem dispatch_event_fields (env : DispatchEnv) (ty : EvType) (p : Pt) :
    (dispatchMouseLike env ty p).bubbles = true ∧
    (dispatchMouseLike env ty p).cancelable = true ∧
    (dispatchMouseLike env ty p).clientX = p.x ∧
    (dispatchMouseLike env ty p).clientY = p.y ∧
    ((dispatchMouseLike env ty p).buttons =
       if env.pointerEventSupported && env.pointerCtorThrows then 0
       else if ty.isDownType then 1 else 0) ∧
    (env.pointerEventSupported = true → env.pointerCtorThrows = false →
       (dispatchMouseLike env ty p).pointerId = 1 ∧
       (dispatchMouseLike env ty p).pointerType = "mouse" ∧
       (dispatchMouseLike env ty p).isPrimary = true ∧
       (dispatchMouseLike env ty p).isPointerEvent = true) := by
  obtain ⟨ps, pt⟩ := env
  cases ps <;> cases pt <;>
    simp [dispatchMouseLike]

/-- C7 witness: on the working PointerEvent path, a pointerdown at (5, 7)
carries the pointer identity fields. -/
theorem dispatch_event_fields_witness :
    (dispatchMouseLike ⟨true, false⟩ EvType.pointerdown ⟨5, 7⟩).pointerId = 1 ∧
    (dispatchMouseLike ⟨true, false⟩ EvType.pointerdown ⟨5, 7⟩).pointerType = "mouse" ∧
    (dispatchMouseLike ⟨true, false⟩ EvType.pointerdown ⟨5, 7⟩).isPrimary = true ∧
    (dispatchMouseLike ⟨true, false⟩ EvType.pointerdown ⟨5, 7⟩).isPointerEvent = true :=
  (dispatch_event_fields ⟨true, false⟩ EvType.pointerdown ⟨5, 7⟩).2.2.2.2.2 rfl rfl

/-
C1: the click event sequence.
-/

/-- C1: a click step on a resolved target dispatches exactly one each of
pointerdown, mousedown, mouseup, click, in that order; the mouseup and click
fire after the 90 ms hold that follows mousedown; and every event in the
sequence carries clientX and clientY equal to the resolved destination point
plus the cursorHotspot offset. -/
theorem click_step_event_sequence (env : Env) (pos : Pt) (s : GuideStep) (tp : Pt)
    (hact : stepAction s = GuideAction.click)
    (htp : stepTP env s = some tp) :
    ((runStep env pos s).events.map (fun te => te.ev.evType) =
       [EvType.pointerdown, EvType.mousedown, EvType.mouseup, EvType.click]) ∧
    (∀ te ∈ (runStep env pos s).events,
        te.ev.clientX = (clickPoint env s tp).x ∧
        te.ev.clientY = (clickPoint env s tp).y) ∧
    ((runStep env pos s).events.map TimedEvent.atMs = [0, 0, clickHoldMs, clickHoldMs]) ∧
    clickHoldMs = 90 := by
  have hrun : runStep env pos s = clickOutcome env s tp (stepTElem env s) := by
    simp only [runStep, htp, runResolvedStep, hact]
  rw [hrun]
  refine ⟨?_, ?_, ?_, rfl⟩
  · simp [clickOutcome, clickSequence, dispatchMouseLike_evType]
  · simp [clickOutcome, clickSequence, dispatchMouseLike_clientX, dispatchMouseLike_clientY]
  · simp [clickOutcome, clickSequence]

/-- The demo click step resolves to the center of the submitBtn rect. -/
lemma demo_click_tp : stepTP demoEnv demoClickStep = some ⟨140, 215⟩ := by
  norm_num [stepTP, stepTargetInfo, stepOpts, stepResolved, resolveTarget,
    demoEnv, demoDom, demoClickStep, getAnchoredPoint, demoRect]

/-- C1 witness: the demo click step on the submitBtn button. -/
theorem click_step_event_sequence_witness :
    ((runStep demoEnv ⟨20, 20⟩ demoClickStep).events.map (fun te => te.ev.evType) =
       [EvType.pointerdown, EvType.mousedown, EvType.mouseup, EvType.click]) ∧
    ((runStep demoEnv ⟨20, 20⟩ demoClickStep).events.map TimedEvent.atMs =
       [0, 0, clickHoldMs, clickHoldMs]) :=
  ⟨(click_step_event_sequence demoEnv ⟨20, 20⟩ demoClickStep ⟨140, 215⟩
      (by decide) demo_click_tp).1,
   (click_step_event_sequence demoEnv ⟨20, 20⟩ demoClickStep ⟨140, 215⟩
      (by decide) demo_click_tp).2.2.1⟩

/-
Orchestrator lemmas.
-/

/-- Every input step contributes exactly one result to the run. -/
lemma runStepsAux_length (env : Env) (p0 : Pt) (steps : List GuideStep) :
    (runStepsAux env p0 steps).length = steps.length := by
  induction steps generalizing p0 with
  | nil => rfl
  | cons s rest ih => simp [runStepsAux, ih]

/-- An unresolved step produces the not-found outcome. -/
lemma runStep_notFound (env : Env) (pos : Pt) (s : GuideStep)
    (h : stepTP env s = Option.none) :
    runStep env pos s = notFoundOutcome env pos s := by
  simp only [runStep, h]

/-
Fidelity lemmas for the throwing resolver: whenever it does not throw, it
agrees with the well-formed projection, and with every selector well-formed
it never throws.
-/

/-- A non-throwing querySelector agrees with the projection. -/
lemma querySelectorE_ok {d : DomE} {s : String} {v : Option ℕ}
    (h : querySelectorE d s = Except.ok v) : v = d.dom.querySelector s := by
  unfold querySelectorE at h
  split at h
  · injection h with h1
    exact h1.symm
  · exact Except.noConfusion h

/-- A non-throwing querySelectorAll agrees with the projection. -/
lemma querySelectorAllE_ok {d : DomE} {scope : Option ℕ} {s : String}
    {v : List ℕ} (h : querySelectorAllE d scope s = Except.ok v) :
    v = d.dom.querySelectorAll scope s := by
  unfold querySelectorAllE at h
  split at h
  · injection h with h1
    exact h1.symm
  · exact Except.noConfusion h

/-- A non-throwing resolveWithin agrees with the projection. -/
lemma resolveWithinE_ok {d : DomE} {w : Option WithinSpec} {v : Option ℕ}
    (h : resolveWithinE d w = Except.ok v) : v = resolveWithin d.dom w := by
  cases w with
  | none =>
      simp only [resolveWithinE] at h
      injection h with h1
      exact h1.symm
  | some ws =>
      cases ws with
      | el e =>
          simp only [resolveWithinE] at h
          injection h with h1
          exact h1.symm
      | str s =>
          simp only [resolveWithinE] at h
          cases hg : d.dom.getElementById s with
          | some e =>
              simp only [hg] at h
              injection h with h1
              subst h1
              simp [resolveWithin, hg]
          | none =>
              simp only [hg] at h
              cases hq : querySelectorE d s with
              | error msg =>
                  simp only [hq] at h
                  exact Except.noConfusion h
              | ok qv =>
                  have hqe := querySelectorE_ok hq
                  cases qv with
                  | some q =>
                      simp only [hq] at h
                      injection h with h1
                      subst h1
                      simp [resolveWithin, hg, ← hqe]
                  | none =>
                      simp only [hq] at h
                      injection h with h1
                      subst h1
                      simp [resolveWithin, hg, ← hqe]

/-- A non-throwing resolveTarget agrees with the projection. -/
lemma resolveTargetE_ok {d : DomE} {t : GuideTarget} {r : Resolved}
    (h : resolveTargetE d t = Except.ok r) : r = resolveTarget d.dom t := by
  cases t with
  | el e =>
      simp only [resolveTargetE] at h
      injection h with h1
      subst h1
      rfl
  | position p =>
      simp only [resolveTargetE] at h
      injection h with h1
      subst h1
      rfl
  | otherObject =>
      simp only [resolveTargetE] at h
      injection h with h1
      subst h1
      rfl
  | str s =>
      simp only [resolveTargetE] at h
      cases hg : d.dom.getElementById s with
      | some e =>
          simp only [hg] at h
          injection h with h1
          subst h1
          simp [resolveTarget, hg]
      | none =>
          simp only [hg] at h
          cases hq : querySelectorE d s with
          | error msg =>
              simp only [hq] at h
              exact Except.noConfusion h
          | ok qv =>
              have hqe := querySelectorE_ok hq
              cases qv with
              | some q =>
                  simp only [hq] at h
                  injection h with h1
                  subst h1
                  simp [resolveTarget, hg, ← hqe]
              | none =>
                  simp only [hq] at h
                  injection h with h1
                  subst h1
                  simp [resolveTarget, hg, ← hqe]
  | selectorSpec sel nth within =>
      simp only [resolveTargetE] at h
      cases hw : resolveWithinE d within with
      | error msg =>
          simp only [hw] at h
          exact Except.noConfusion h
      | ok scope =>
          have hwe := resolveWithinE_ok hw
          simp only [hw] at h
          cases hq : querySelectorAllE d scope sel with
          | error msg =>
              simp only [hq] at h
              exact Except.noConfusion h
          | ok all =>
              have hqe := querySelectorAllE_ok hq
              simp only [hq] at h
              injection h with h1
              subst h1
              simp [resolveTarget, ← hwe, ← hqe]

/-- A non-throwing dragTo resolution agrees with the projection. -/
lemma dragDestPointE_ok {env : EnvE} {a : Option Anchor} {dt : GuideTarget}
    {v : Option Pt} (h : dragDestPointE env a dt = Except.ok v) :
    v = dragDestPoint env.toEnv a dt := by
  unfold dragDestPointE at h
  cases hr : resolveTargetE env.domE dt with
  | error msg =>
      simp only [hr] at h
      exact Except.noConfusion h
  | ok dest =>
      have hde := resolveTargetE_ok hr
      simp only [hr] at h
      injection h with h1
      subst h1
      simp only [dragDestPoint, EnvE.toEnv]
      rw [← hde]

/-- With every selector well-formed, querySelector never throws. -/
lemma querySelectorE_valid {d : DomE} (hv : ∀ s, d.selectorOk s = true)
    (s : String) : querySelectorE d s = Except.ok (d.dom.querySelector s) := by
  simp [querySelectorE, hv s]

/-- With every selector well-formed, querySelectorAll never throws. -/
lemma querySelectorAllE_valid {d : DomE} (hv : ∀ s, d.selectorOk s = true)
    (scope : Option ℕ) (s : String) :
    querySelectorAllE d scope s = Except.ok (d.dom.querySelectorAll scope s) := by
  simp [querySelectorAllE, hv s]

/-- With every selector well-formed, resolveWithin never throws. -/
lemma resolveWithinE_valid {d : DomE} (hv : ∀ s, d.selectorOk s = true)
    (w : Option WithinSpec) :
    resolveWithinE d w = Except.ok (resolveWithin d.dom w) := by
  cases w with
  | none => rfl
  | some ws =>
      cases ws with
      | el e => rfl
      | str s =>
          cases hg : d.dom.getElementById s with
          | some e => simp [resolveWithinE, resolveWithin, hg]
          | none =>
              cases hq : d.dom.querySelector s with
              | some q =>
                  simp [resolveWithinE, resolveWithin, hg,
                    querySelectorE_valid hv, hq]
              | none =>
                  simp [resolveWithinE, resolveWithin, hg,
                    querySelectorE_valid hv, hq]

/-- With every selector well-formed, resolveTarget never throws and equals
the projection. -/
lemma resolveTargetE_valid {d : DomE} (hv : ∀ s, d.selectorOk s = true)
    (t : GuideTarget) :
    resolveTargetE d t = Except.ok (resolveTarget d.dom t) := by
  cases t with
  | el e => rfl
  | position p => rfl
  | otherObject => rfl
  | str s =>
      cases hg : d.dom.getElementById s with
      | some e => simp [resolveTargetE, resolveTarget, hg]
      | none =>
          cases hq : d.dom.querySelector s with
          | some q =>
              simp [resolveTargetE, resolveTarget, hg,
                querySelectorE_valid hv, hq]
          | none =>
              simp [resolveTargetE, resolveTarget, hg,
                querySelectorE_valid hv, hq]
  | selectorSpec sel nth within =>
      simp [resolveTargetE, resolveTarget, resolveWithinE_valid hv,
        querySelectorAllE_valid hv]

/-- With every selector well-formed, the dragTo resolution never throws. -/
lemma dragDestPointE_valid {env : EnvE} (hv : ∀ s, env.domE.selectorOk s = true)
    (a : Option Anchor) (dt : GuideTarget) :
    dragDestPointE env a dt = Except.ok (dragDestPoint env.toEnv a dt) := by
  unfold dragDestPointE
  rw [resolveTargetE_valid hv]
  rfl

/-- With every selector well-formed, the throwing drag branch equals the
projection. -/
lemma dragOutcomeE_valid {env : EnvE} (hv : ∀ s, env.domE.selectorOk s = true)
    (s : GuideStep) (tp : Pt) :
    dragOutcomeE env s tp = dragOutcome env.toEnv s tp := by
  unfold dragOutcomeE
  cases hdt : (stepOpts s).dragTo with
  | none => rfl
  | some dt => simp [dragDestPointE_valid hv (stepOpts s).anchor dt]

/-- With every selector well-formed, a resolved step equals the
projection. -/
lemma runResolvedStepE_valid {env : EnvE}
    (hv : ∀ s, env.domE.selectorOk s = true) (s : GuideStep) (tp : Pt)
    (telem : Option ℕ) :
    runResolvedStepE env s tp telem = runResolvedStep env.toEnv s tp telem := by
  cases hact : stepAction s with
  | none => simp only [runResolvedStepE, hact]
  | click => simp only [runResolvedStepE, runResolvedStep, hact]
  | drag =>
      simp only [runResolvedStepE, runResolvedStep, hact]
      exact dragOutcomeE_valid hv s tp

/-- With every selector well-formed, the throwing step equals the
projection. -/
lemma runStepE_valid {env : EnvE} (hv : ∀ s, env.domE.selectorOk s = true)
    (pos : Pt) (s : GuideStep) :
    runStepE env pos s = Except.ok (runStep env.toEnv pos s) := by
  unfold runStepE
  rw [resolveTargetE_valid hv]
  have hb : resolveTarget env.domE.dom s.target = stepResolved env.toEnv s := rfl
  rw [hb]
  cases htp : (stepTargetInfo env.toEnv (stepOpts s).anchor
      (stepResolved env.toEnv s)).1 with
  | none => simp only [runStep, stepTP, htp]
  | some tp =>
      simp only [runStep, stepTP, htp, stepTElem]
      rw [runResolvedStepE_valid hv]

/-- With every selector well-formed, the throwing loop equals the
projection. -/
lemma runStepsAuxE_valid {env : EnvE} (hv : ∀ s, env.domE.selectorOk s = true) :
    ∀ (pos : Pt) (steps : List GuideStep),
      runStepsAuxE env pos steps = Except.ok (runStepsAux env.toEnv pos steps) := by
  intro pos steps
  induction steps generalizing pos with
  | nil => rfl
  | cons s rest ih =>
      simp only [runStepsAuxE, runStepsAux, runStepE_valid hv, ih]

/-
C2: resolution priority, the escaping selector exception, and terminal
results.
-/

/-- C2 counterexample: resolution can throw, and the exception escapes the
Orchestrator boundary with no terminal record. The string target !! names
no element, and is a malformed selector, so document.querySelector throws a
SyntaxError; since resolveTarget runs outside the per-step try block, the
one-step run returns the error instead of any GuideRunResult: no step
record is produced at all, refuting the never-throws and
always-a-terminal-record parts of the claim as stated. -/
theorem resolve_throws_on_malformed_selector :
    resolveTargetE demoDomE (GuideTarget.str "!!") = Except.error "SyntaxError" ∧
    runGuideE demoEnvE ⟨20, 20⟩ [{ target := GuideTarget.str "!!" }] =
      Except.error "SyntaxError" ∧
    ∀ r : GuideRunResult,
      runGuideE demoEnvE ⟨20, 20⟩ [{ target := GuideTarget.str "!!" }] ≠
        Except.ok r := by
  refine ⟨rfl, rfl, ?_⟩
  intro r hr
  rw [show runGuideE demoEnvE ⟨20, 20⟩ [{ target := GuideTarget.str "!!" }] =
      Except.error "SyntaxError" from rfl] at hr
  exact Except.noConfusion hr

/-- C2 (amended): resolution is attempted in the fixed priority order, id
lookup first (which never throws: an id hit resolves without consulting the
selector grammar, even for a malformed string), then the generic selector
query; on an id miss a well-formed selector resolves as the total
projection and an unresolved target yields the explicit not-found value,
which the orchestrator turns into an ok false, Target not found record; but
on an id miss a malformed selector string makes querySelector throw a
SyntaxError which, because resolveTarget runs outside the step's try block,
escapes the Orchestrator: that step and all later steps produce no record
and the caller receives the error instead of a run result. When no
resolution throws, every step produces exactly one terminal record, and
with every selector well-formed the run equals the total projection. -/
theorem resolve_priority_throw_and_terminal_result :
    (∀ (d : DomE) (s : String) (e : ℕ), d.dom.getElementById s = some e →
        resolveTargetE d (GuideTarget.str s) =
          Except.ok ⟨TargetKind.element, some e, Option.none⟩) ∧
    (∀ (d : DomE) (s : String), d.dom.getElementById s = Option.none →
        d.selectorOk s = true →
        resolveTargetE d (GuideTarget.str s) =
          Except.ok (resolveTarget d.dom (GuideTarget.str s))) ∧
    (∀ (d : DomE) (s : String), d.dom.getElementById s = Option.none →
        d.selectorOk s = false →
        resolveTargetE d (GuideTarget.str s) = Except.error "SyntaxError") ∧
    (∀ (env : EnvE) (pos : Pt) (s : GuideStep) (rest : List GuideStep)
        (msg : String),
        resolveTargetE env.domE s.target = Except.error msg →
        runStepsAuxE env pos (s :: rest) = Except.error msg ∧
        runGuideE env pos (s :: rest) = Except.error msg) ∧
    (∀ (env : EnvE) (pos : Pt) (s : GuideStep) (res : Resolved),
        resolveTargetE env.domE s.target = Except.ok res →
        (stepTargetInfo env.toEnv (stepOpts s).anchor res).1 = Option.none →
        runStepE env pos s = Except.ok (notFoundOutcome env.toEnv pos s) ∧
        (notFoundOutcome env.toEnv pos s).result.ok = false ∧
        (notFoundOutcome env.toEnv pos s).result.error = some "Target not found") ∧
    (∀ (env : EnvE) (p0 : Pt) (steps : List GuideStep)
        (outs : List (GuideStepResult × List TimedEvent)),
        runStepsAuxE env p0 steps = Except.ok outs →
        outs.length = steps.length) ∧
    (∀ env : EnvE, (∀ s, env.domE.selectorOk s = true) →
        ∀ (p0 : Pt) (steps : List GuideStep),
          runGuideE env p0 steps = Except.ok (runGuide env.toEnv p0 steps)) := by
  refine ⟨?_, ?_, ?_, ?_, ?_, ?_, ?_⟩
  · intro d s e h
    simp [resolveTargetE, h]
  · intro d s hid hv
    cases hq : d.dom.querySelector s with
    | some q =>
        simp [resolveTargetE, resolveTarget, querySelectorE, hid, hv, hq]
    | none =>
        simp [resolveTargetE, resolveTarget, querySelectorE, hid, hv, hq]
  · intro d s hid hv
    simp [resolveTargetE, querySelectorE, hid, hv]
  · intro env pos s rest msg h
    have haux : runStepsAuxE env pos (s :: rest) = Except.error msg := by
      simp only [runStepsAuxE, runStepE, h]
    exact ⟨haux, by simp only [runGuideE, haux]⟩
  · intro env pos s res hok hnone
    refine ⟨?_, rfl, rfl⟩
    rcases hti : stepTargetInfo env.toEnv (stepOpts s).anchor res with ⟨otp, telem⟩
    rw [hti] at hnone
    simp at hnone
    subst hnone
    simp only [runStepE, hok, hti]
  · intro env p0 steps
    induction steps generalizing p0 with
    | nil =>
        intro outs h
        simp only [runStepsAuxE] at h
        injection h with h1
        rw [← h1]
        rfl
    | cons s rest ih =>
        intro outs h
        simp only [runStepsAuxE] at h
        cases hs : runStepE env p0 s with
        | error msg =>
            simp only [hs] at h
            exact Except.noConfusion h
        | ok o =>
            simp only [hs] at h
            cases hr : runStepsAuxE env o.endPos rest with
            | error msg =>
                simp only [hr] at h
                exact Except.noConfusion h
            | ok outs2 =>
                simp only [hr] at h
                injection h with h1
                rw [← h1]
                simp [ih o.endPos outs2 hr]
  · intro env hv p0 steps
    simp only [runGuideE, runGuide, runStepsAuxE_valid hv]

/-- C2 witness: an id hit resolves without throwing, a missing id with a
well-formed selector agrees with the projection, and the all-well-formed
demo run equals the total-model run. -/
theorem resolve_priority_throw_and_terminal_result_witness :
    resolveTargetE demoDomE (GuideTarget.str "submitBtn") =
      Except.ok ⟨TargetKind.element, some 1, Option.none⟩ ∧
    resolveTargetE demoDomE (GuideTarget.str "doesNotExist") =
      Except.ok (resolveTarget demoDomE.dom (GuideTarget.str "doesNotExist")) ∧
    runGuideE demoEnvAllValid ⟨20, 20⟩ demo3Steps =
      Except.ok (runGuide demoEnvAllValid.toEnv ⟨20, 20⟩ demo3Steps) :=
  ⟨resolve_priority_throw_and_terminal_result.1 demoDomE "submitBtn" 1 (by decide),
   resolve_priority_throw_and_terminal_result.2.1 demoDomE "doesNotExist"
     (by decide) (by decide),
   resolve_priority_throw_and_terminal_result.2.2.2.2.2.2 demoEnvAllValid
     (fun s => rfl) ⟨20, 20⟩ demo3Steps⟩

/-
C3: run aggregation and continuation after failure.
-/

/-- C3: a run produces one result per input step in order; the overall ok
flag is the conjunction of the per-step ok flags; a step whose target does
not resolve yields ok false with error Target not found, dispatches no
events and leaves the cursor in place; and the loop continues with the
remaining steps after any step, failed or not. -/
theorem run_aggregates_and_continues :
    (∀ (env : Env) (p0 : Pt) (steps : List GuideStep),
        (runGuide env p0 steps).steps.length = steps.length) ∧
    (∀ (env : Env) (p0 : Pt) (steps : List GuideStep),
        (runGuide env p0 steps).ok =
          (runGuide env p0 steps).steps.all GuideStepResult.ok) ∧
    (∀ (env : Env) (pos : Pt) (s : GuideStep), stepTP env s = Option.none →
        (runStep env pos s).result.ok = false ∧
        (runStep env pos s).result.error = some "Target not found" ∧
        (runStep env pos s).events = [] ∧
        (runStep env pos s).endPos = pos) ∧
    (∀ (env : Env) (p0 : Pt) (s : GuideStep) (rest : List GuideStep),
        runStepsAux env p0 (s :: rest) =
          ((runStep env p0 s).result, (runStep env p0 s).events) ::
            runStepsAux env (runStep env p0 s).endPos rest) := by
  refine ⟨?_, ?_, ?_, ?_⟩
  · intro env p0 steps
    simp [runGuide, runStepsAux_length]
  · intro env p0 steps
    rfl
  · intro env pos s h
    rw [runStep_notFound env pos s h]
    exact ⟨rfl, rfl, rfl, rfl⟩
  · intro env p0 s rest
    rfl

/-- C3 witness: the three-step demo run (good, bad, good) keeps all three
results, the failing middle step carries the not-found error, and the
overall flag is the conjunction of the per-step flags. -/
theorem run_aggregates_and_continues_witness :
    (runGuide demoEnv ⟨20, 20⟩ demo3Steps).steps.length = 3 ∧
    (runStep demoEnv ⟨20, 20⟩ demoBadStep).result.ok = false ∧
    (runGuide demoEnv ⟨20, 20⟩ demo3Steps).ok =
      (runGuide demoEnv ⟨20, 20⟩ demo3Steps).steps.all GuideStepResult.ok := by
  refine ⟨?_, ?_, run_aggregates_and_continues.2.1 demoEnv ⟨20, 20⟩ demo3Steps⟩
  · rw [run_aggregates_and_continues.1 demoEnv ⟨20, 20⟩ demo3Steps]
    rfl
  · exact (run_aggregates_and_continues.2.2.1 demoEnv ⟨20, 20⟩ demoBadStep
      (by decide)).1

/-
C9: viewport clamping of step destinations.
-/

/-- C9: for travel and drag destinations alike, the destination is the
anchored target point plus the offset, clamped componentwise to the
viewport, so a destination outside the viewport is pulled to its boundary:
the clamped point lies in [0, innerWidth] x [0, innerHeight] whenever the
viewport dimensions are nonnegative, a travel step ends on the clamped
destination, and a drag step ends on the clamped drag destination. -/
theorem step_destination_clamped_to_viewport :
    (∀ (vp : Viewport) (tp : Pt) (off : Option OffsetSpec),
        stepDestination vp tp off =
          ⟨clamp (applyOffset tp off).x 0 vp.innerWidth,
           clamp (applyOffset tp off).y 0 vp.innerHeight⟩) ∧
    (∀ (vp : Viewport) (tp : Pt) (off : Option OffsetSpec),
        0 ≤ vp.innerWidth → 0 ≤ vp.innerHeight →
        0 ≤ (stepDestination vp tp off).x ∧
        (stepDestination vp tp off).x ≤ vp.innerWidth ∧
        0 ≤ (stepDestination vp tp off).y ∧
        (stepDestination vp tp off).y ≤ vp.innerHeight) ∧
    (∀ (env : Env) (pos : Pt) (s : GuideStep) (tp : Pt),
        stepTP env s = some tp → stepAction s = GuideAction.none →
        (runStep env pos s).endPos =
          stepDestination env.viewport tp (stepOpts s).offset) ∧
    (∀ (env : Env) (pos : Pt) (s : GuideStep) (tp dp : Pt) (dt : GuideTarget),
        stepTP env s = some tp → stepAction s = GuideAction.drag →
        (stepOpts s).dragTo = some dt →
        dragDestPoint env (stepOpts s).anchor dt = some dp →
        (runStep env pos s).endPos =
          stepDestination env.viewport dp (stepOpts s).offset) := by
  refine ⟨fun vp tp off => rfl, ?_, ?_, ?_⟩
  · intro vp tp off hw hh
    refine ⟨le_max_left _ _, max_le hw (min_le_left _ _),
            le_max_left _ _, max_le hh (min_le_left _ _)⟩
  · intro env pos s tp htp hact
    simp only [runStep, htp, runResolvedStep, hact]
  · intro env pos s tp dp dt htp hact hdt hdp
    simp only [runStep, htp, runResolvedStep, hact, dragOutcome, hdt, hdp]

/-- C9 witness: a target point far outside the 1024 x 768 demo viewport is
clamped to the boundary, and the demo travel step ends on its clamped
destination. -/
theorem step_destination_clamped_to_viewport_witness :
    (0 ≤ (stepDestination ⟨1024, 768⟩ ⟨2000, -50⟩ Option.none).x ∧
     (stepDestination ⟨1024, 768⟩ ⟨2000, -50⟩ Option.none).x ≤ 1024 ∧
     0 ≤ (stepDestination ⟨1024, 768⟩ ⟨2000, -50⟩ Option.none).y ∧
     (stepDestination ⟨1024, 768⟩ ⟨2000, -50⟩ Option.none).y ≤ 768) ∧
    (runStep demoEnv ⟨20, 20⟩ demoMoveStep).endPos =
      stepDestination demoEnv.viewport ⟨140, 215⟩ (stepOpts demoMoveStep).offset := by
  refine ⟨?_, ?_⟩
  · exact step_destination_clamped_to_viewport.2.1 ⟨1024, 768⟩ ⟨2000, -50⟩
      Option.none (by norm_num) (by norm_num)
  · refine step_destination_clamped_to_viewport.2.2.1 demoEnv ⟨20, 20⟩
      demoMoveStep ⟨140, 215⟩ ?_ (by decide)
    norm_num [stepTP, stepTargetInfo, stepOpts, stepResolved, resolveTarget,
      demoEnv, demoDom, demoMoveStep, getAnchoredPoint, demoRect]

/-
C10: the fall-through object target.
-/

/-- C10: an object target that is neither an element nor carries a position
or selector key resolves to kind position at the literal point (0, 0); such
a step is not treated as not found: with the default action it reports ok
true with no error, and the cursor destination is (0, 0) (the clamp fixes
the origin whenever the viewport dimensions are nonnegative). -/
theorem fallthrough_object_target_origin :
    (∀ dom : Dom, resolveTarget dom GuideTarget.otherObject =
        ⟨TargetKind.position, Option.none, some ⟨0, 0⟩⟩) ∧
    (∀ (env : Env) (pos : Pt),
        0 ≤ env.viewport.innerWidth → 0 ≤ env.viewport.innerHeight →
        (runStep env pos { target := GuideTarget.otherObject }).result.ok = true ∧
        (runStep env pos { target := GuideTarget.otherObject }).result.targetKind =
          TargetKind.position ∧
        (runStep env pos { target := GuideTarget.otherObject }).result.error =
          Option.none ∧
        (runStep env pos { target := GuideTarget.otherObject }).endPos = ⟨0, 0⟩) := by
  refine ⟨fun dom => rfl, ?_⟩
  intro env pos hw hh
  have htp : stepTP env { target := GuideTarget.otherObject } = some ⟨0, 0⟩ := rfl
  have hact : stepAction { target := GuideTarget.otherObject } = GuideAction.none := rfl
  have hrun : runStep env pos { target := GuideTarget.otherObject } =
      runResolvedStep env { target := GuideTarget.otherObject } ⟨0, 0⟩
        (stepTElem env { target := GuideTarget.otherObject }) := by
    simp only [runStep, htp]
  rw [hrun]
  simp only [runResolvedStep, hact]
  refine ⟨by trivial, by trivial, by trivial, ?_⟩
  have hx : clamp (0 + 0) 0 env.viewport.innerWidth = 0 := by
    unfold clamp
    rw [add_zero, min_eq_right hw, max_self]
  have hy : clamp (0 + 0) 0 env.viewport.innerHeight = 0 := by
    unfold clamp
    rw [add_zero, min_eq_right hh, max_self]
  have hdest : stepDestination env.viewport ⟨0, 0⟩
      (stepOpts { target := GuideTarget.otherObject }).offset =
      ⟨clamp (0 + 0) 0 env.viewport.innerWidth,
       clamp (0 + 0) 0 env.viewport.innerHeight⟩ := rfl
  show stepDestination env.viewport ⟨0, 0⟩
      (stepOpts { target := GuideTarget.otherObject }).offset = ⟨0, 0⟩
  rw [hdest, hx, hy]

/-- C10 witness: in the demo environment the fall-through object target
yields an ok step ending at the origin. -/
theorem fallthrough_object_target_origin_witness :
    (runStep demoEnv ⟨20, 20⟩ { target := GuideTarget.otherObject }).result.ok = true ∧
    (runStep demoEnv ⟨20, 20⟩ { target := GuideTarget.otherObject }).endPos = ⟨0, 0⟩ :=
  ⟨(fallthrough_object_target_origin.2 demoEnv ⟨20, 20⟩ (by norm_num [demoEnv])
      (by norm_num [demoEnv])).1,
   (fallthrough_object_target_origin.2 demoEnv ⟨20, 20⟩ (by norm_num [demoEnv])
      (by norm_num [demoEnv])).2.2.2⟩

/-
C5: the range-slider drag loop.
-/

/-- The slider loop runs exactly twenty iterations. -/
lemma sliderDragSteps_length (inp : RangeInput) (toValue : ℚ) (startP : Pt)
    (durationMs : ℚ) :
    (sliderDragSteps inp toValue startP durationMs).length = sliderStepCount := by
  simp [sliderDragSteps]

/-- List.range 20 ends with 19. -/
lemma range_twenty_concat : List.range 20 = List.range 19 ++ [19] := by decide

/-- The last value the loop writes is the value of iteration 20. -/
lemma sliderFinalValue_eq_last (inp : RangeInput) (toValue : ℚ) (startP : Pt)
    (durationMs : ℚ) :
    sliderFinalValue inp toValue startP durationMs =
      some (sliderStepAt inp toValue startP durationMs 20).valueWritten := by
  unfold sliderFinalValue sliderDragSteps sliderStepCount
  rw [range_twenty_concat, List.map_append, List.map_append]
  simp

/-- C5: after the twenty-step range-slider drag completes, the value written
to the input equals clamp(toValue, min, max) exactly; the loop has exactly
twenty iterations; each iteration dispatches pointermove, mousemove, then
input and change, in that order; and each iteration awaits
max(4, durationMs / steps / 2). -/
theorem slider_drag_lands_exact (inp : RangeInput) (toValue : ℚ) (startP : Pt)
    (durationMs : ℚ) (mn mx : ℚ)
    (hmn : inp.minAttr = some mn) (hmx : inp.maxAttr = some mx) :
    sliderFinalValue inp toValue startP durationMs = some (clamp toValue mn mx) ∧
    (sliderDragSteps inp toValue startP durationMs).length = sliderStepCount ∧
    (∀ st ∈ sliderDragSteps inp toValue startP durationMs,
        st.events = [SliderEvKind.pointermove, SliderEvKind.mousemove,
                     SliderEvKind.inputEv, SliderEvKind.changeEv]) ∧
    (∀ st ∈ sliderDragSteps inp toValue startP durationMs,
        st.delayMs = max 4 (durationMs / (sliderStepCount : ℚ) / 2)) := by
  refine ⟨?_, sliderDragSteps_length inp toValue startP durationMs, ?_, ?_⟩
  · rw [sliderFinalValue_eq_last]
    have hv : (sliderStepAt inp toValue startP durationMs 20).valueWritten =
        clamp toValue mn mx := by
      simp only [sliderStepAt, rangeMin, rangeMax, hmn, hmx, Option.getD_some,
        sliderStepCount]
      norm_num
    rw [hv]
  · intro st hst
    obtain ⟨j, _, rfl⟩ := List.mem_map.1 hst
    rfl
  · intro st hst
    obtain ⟨j, _, rfl⟩ := List.mem_map.1 hst
    rfl

/-- C5 witness: dragging the demo slider (min 0, max 100) to 80 writes
exactly 80 as the final value, over twenty iterations. -/
theorem slider_drag_lands_exact_witness :
    sliderFinalValue demoRange 80 ⟨10, 10⟩ 800 = some 80 ∧
    (sliderDragSteps demoRange 80 ⟨10, 10⟩ 800).length = sliderStepCount := by
  have h := slider_drag_lands_exact demoRange 80 ⟨10, 10⟩ 800 0 100 rfl rfl
  refine ⟨?_, h.2.1⟩
  rw [h.1]
  norm_num [clamp]

/-
C8: the hide-timer discipline.
-/

/-- A state with no pending timers satisfies the timer invariant. -/
lemma timerInv_of_live_nil {st : TimerState} (h : st.live = []) : TimerInv st := by
  constructor
  · intro id hid
    rw [h] at hid
    cases hid
  · rw [h]
    simp

/-- Under the invariant the pending-timer list is empty or the singleton of
the id held by the variable. -/
lemma timerInv_live_cases {st : TimerState} (h : TimerInv st) :
    st.live = [] ∨ ∃ id, st.slot = some id ∧ st.live = [id] := by
  obtain ⟨hmem, hlen⟩ := h
  cases hl : st.live with
  | nil => exact Or.inl rfl
  | cons a l =>
      cases l with
      | nil =>
          exact Or.inr ⟨a, hmem a (by rw [hl]; exact List.mem_cons_self a []), rfl⟩
      | cons b l2 =>
          exfalso
          rw [hl] at hlen
          simp at hlen

/-- Clearing the timer the variable holds empties the pending list. -/
lemma clear_slot_live {st : TimerState} (h : TimerInv st) (id : ℕ)
    (hid : st.slot = some id) : st.live.erase id = [] := by
  rcases timerInv_live_cases h with hnil | ⟨j, hslot, hl⟩
  · rw [hnil]
    rfl
  · rw [hid] at hslot
    injection hslot with hj
    rw [hl, hj]
    exact List.erase_cons_head j []

/-- With a null timer variable the invariant forces no pending timer. -/
lemma slot_none_live_nil {st : TimerState} (h : TimerInv st)
    (hs : st.slot = Option.none) : st.live = [] := by
  rcases timerInv_live_cases h with hnil | ⟨j, hslot, _⟩
  · exact hnil
  · rw [hs] at hslot
    cases hslot

/-- keepCursorVisibleWhileMoving cancels every pending timer. -/
lemma keep_live_nil {st : TimerState} (h : TimerInv st) :
    (keepCursorVisibleWhileMoving st).live = [] := by
  unfold keepCursorVisibleWhileMoving
  cases hs : st.slot with
  | none => simp [hs, slot_none_live_nil h hs]
  | some id => simp [hs, clear_slot_live h id hs]

/-- While idle, scheduleCursorHide cancels any pending timer and leaves
exactly the fresh one pending, held by the variable. -/
lemma schedule_live {st : TimerState} (h : TimerInv st)
    (hm : st.isMoving = false) :
    (scheduleCursorHide st).live = [st.nextId] ∧
    (scheduleCursorHide st).slot = some st.nextId := by
  cases hs : st.slot with
  | none => simp [scheduleCursorHide, hm, hs, slot_none_live_nil h hs]
  | some id => simp [scheduleCursorHide, hm, hs, clear_slot_live h id hs]

/-- scheduleCursorHide preserves the timer invariant. -/
lemma timerInv_schedule {st : TimerState} (h : TimerInv st) :
    TimerInv (scheduleCursorHide st) := by
  cases hm : st.isMoving with
  | false =>
      obtain ⟨hl, hslot⟩ := schedule_live h hm
      constructor
      · intro id hid
        rw [hl] at hid
        rw [hslot, List.mem_singleton.1 hid]
      · rw [hl]
        simp
  | true =>
      rw [show scheduleCursorHide st = st by simp [scheduleCursorHide, hm]]
      exact h

/-- Firing a timer preserves the timer invariant. -/
lemma timerInv_fire {st : TimerState} (h : TimerInv st) (id : ℕ) :
    TimerInv (fireTimer st id) := by
  have h1 : ∀ j ∈ st.live.erase id, st.slot = some j :=
    fun j hj => h.1 j (List.mem_of_mem_erase hj)
  have h2 : (st.live.erase id).length ≤ 1 :=
    le_trans (List.length_erase_le id st.live) h.2
  unfold fireTimer
  split
  · dsimp only
    split
    · exact ⟨h1, h2⟩
    · exact ⟨h1, h2⟩
  · exact h

/-- Every operation preserves the timer invariant. -/
lemma timerInv_applyOp {st : TimerState} (h : TimerInv st) (op : CursorOp) :
    TimerInv (applyOp st op) := by
  cases op with
  | keep => exact timerInv_of_live_nil (keep_live_nil h)
  | schedule => exact timerInv_schedule h
  | stopMove => exact timerInv_schedule ⟨h.1, h.2⟩
  | ensureVisible => exact ⟨h.1, h.2⟩
  | fire id => exact timerInv_fire h id

/-- The invariant holds after any operation sequence from an invariant
state. -/
lemma timerInv_runOps_aux (ops : List CursorOp) :
    ∀ st : TimerState, TimerInv st → TimerInv (runOps st ops) := by
  induction ops with
  | nil => intro st h; exact h
  | cons op rest ih => intro st h; exact ih _ (timerInv_applyOp h op)

/-- keepCursorVisibleWhileMoving never changes visibility. -/
lemma keep_visible (st : TimerState) :
    (keepCursorVisibleWhileMoving st).visible = st.visible := by
  unfold keepCursorVisibleWhileMoving
  cases hs : st.slot <;> simp [hs]

/-- scheduleCursorHide never changes visibility directly. -/
lemma schedule_visible (st : TimerState) :
    (scheduleCursorHide st).visible = st.visible := by
  unfold scheduleCursorHide
  split
  · rfl
  · cases hs : st.slot <;> simp [hs]

/-- A firing timer leaves visibility alone while the movement flag is set. -/
lemma fire_visible_moving {st : TimerState} (id : ℕ) (hm : st.isMoving = true) :
    (fireTimer st id).visible = st.visible := by
  unfold fireTimer
  split
  · simp [hm]
  · rfl

/-- An operation can remove visibility only when the movement flag is
clear. -/
lemma hide_only_when_idle {st : TimerState} (op : CursorOp)
    (hv : st.visible = true) (hv2 : (applyOp st op).visible = false) :
    st.isMoving = false := by
  cases hm : st.isMoving with
  | false => rfl
  | true =>
      exfalso
      cases op with
      | keep =>
          rw [show applyOp st CursorOp.keep = keepCursorVisibleWhileMoving st from rfl,
            keep_visible, hv] at hv2
          cases hv2
      | schedule =>
          rw [show applyOp st CursorOp.schedule = scheduleCursorHide st from rfl,
            schedule_visible, hv] at hv2
          cases hv2
      | stopMove =>
          rw [show applyOp st CursorOp.stopMove =
              scheduleCursorHide { st with isMoving := false } from rfl,
            schedule_visible] at hv2
          rw [show ({ st with isMoving := false } : TimerState).visible =
              st.visible from rfl, hv] at hv2
          cases hv2
      | ensureVisible =>
          rw [show (applyOp st CursorOp.ensureVisible).visible = true from rfl] at hv2
          cases hv2
      | fire id =>
          rw [show applyOp st (CursorOp.fire id) = fireTimer st id from rfl,
            fire_visible_moving id hm, hv] at hv2
          cases hv2

/-- C8: from the module load state, any sequence of visibility operations
leaves at most one pending hide timer; scheduleCursorHide is a no-op while
the movement flag is set; keepCursorVisibleWhileMoving cancels any pending
timer, and scheduleCursorHide cancels any pending timer before scheduling
the fresh one; and no operation can hide the cursor while the movement flag
is set. -/
theorem cursor_hide_timer_invariant :
    (∀ ops : List CursorOp, (runOps initTimerState ops).live.length ≤ 1) ∧
    (∀ st : TimerState, st.isMoving = true → scheduleCursorHide st = st) ∧
    (∀ st : TimerState, TimerInv st → (keepCursorVisibleWhileMoving st).live = []) ∧
    (∀ st : TimerState, TimerInv st → st.isMoving = false →
        (scheduleCursorHide st).live = [st.nextId] ∧
        (scheduleCursorHide st).slot = some st.nextId) ∧
    (∀ (st : TimerState) (op : CursorOp), st.visible = true →
        (applyOp st op).visible = false → st.isMoving = false) := by
  refine ⟨?_, ?_, ?_, ?_, ?_⟩
  · intro ops
    exact (timerInv_runOps_aux ops initTimerState (timerInv_of_live_nil rfl)).2
  · intro st hm
    simp [scheduleCursorHide, hm]
  · intro st h
    exact keep_live_nil h
  · intro st h hm
    exact schedule_live h hm
  · intro st op hv hv2
    exact hide_only_when_idle op hv hv2

/-- C8 witness: concrete instances of the timer discipline. -/
theorem cursor_hide_timer_invariant_witness :
    (runOps initTimerState [CursorOp.stopMove, CursorOp.fire 0]).live.length ≤ 1 ∧
    scheduleCursorHide ⟨true, Option.none, [], 5, true⟩ =
      ⟨true, Option.none, [], 5, true⟩ ∧
    (keepCursorVisibleWhileMoving ⟨false, some 3, [3], 4, true⟩).live = [] ∧
    (scheduleCursorHide ⟨false, some 3, [3], 4, true⟩).live = [4] ∧
    (⟨false, some 3, [3], 4, true⟩ : TimerState).isMoving = false :=
  ⟨cursor_hide_timer_invariant.1 [CursorOp.stopMove, CursorOp.fire 0],
   cursor_hide_timer_invariant.2.1 ⟨true, Option.none, [], 5, true⟩ rfl,
   cursor_hide_timer_invariant.2.2.1 ⟨false, some 3, [3], 4, true⟩
     ⟨by decide, by decide⟩,
   (cursor_hide_timer_invariant.2.2.2.1 ⟨false, some 3, [3], 4, true⟩
     ⟨by decide, by decide⟩ rfl).1,
   cursor_hide_timer_invariant.2.2.2.2 ⟨false, some 3, [3], 4, true⟩
     (CursorOp.fire 3) rfl (by decide)⟩

end WebControl
